import Mathlib

/-!
Shallow embedding of the `anti_debug` crate (Windows anti-debugging probes).

Each OS call is modelled by passing the OS's observable response explicitly:
an `NtQueryInformationProcess` call becomes the `(status, buffer value)` pair
it produces, `GetThreadContext` becomes the returned context (or `none` on
API failure), and `NtQuerySystemInformation` becomes a response function of
the call index and the buffer size passed.  Pointers are modelled as `Nat`
addresses with `0` for null, or as `Option` where the code only tests
nullness.  `anyhow::Result` becomes `Except String`.
-/

/-- NTSTATUS success value, as the signed 32-bit value of the status code. -/
def STATUS_SUCCESS : Int := 0

/-- NTSTATUS `STATUS_PORT_NOT_SET` (0xC0000353 as a signed 32-bit value). -/
def STATUS_PORT_NOT_SET : Int := -1073740973

/-- NTSTATUS `STATUS_INFO_LENGTH_MISMATCH` (0xC0000004 as a signed 32-bit value). -/
def STATUS_INFO_LENGTH_MISMATCH : Int := -1073741820

/-- The three `PROCESSINFOCLASS` selectors used by `nt_query/mod.rs`. -/
inductive QueryType where
  | DebugPort
  | DebugObject
  | DebugFlags
deriving DecidableEq

/-- Observable outcome of one `NtQueryInformationProcess` call whose output
buffer is a `u64`: the returned status and the value left in the buffer. -/
structure NtQueryResponse where
  status : Int
  value : Nat
deriving DecidableEq

/-- Observable outcome of one `NtQueryInformationProcess` call whose output
buffer is a `HANDLE`: the returned status and the raw handle value (an
`isize`, so modelled as `Int`). -/
structure NtHandleQueryResponse where
  status : Int
  handle : Int
deriving DecidableEq

/-- `windows` crate `HANDLE::is_invalid`: the handle is the null value `0` or
the `INVALID_HANDLE_VALUE` sentinel `-1`. -/
def HANDLE.is_invalid (h : Int) : Bool :=
  h == 0 || h == -1

/-- `DebugPort::nt_query_debug_port` (src/nt_query/mod.rs:74-103): any
non-success status is a typed error; on success the port value `0` means
clean, anything else means debugged. -/
def DebugPort.nt_query_debug_port (resp : NtQueryResponse) : Except String Bool :=
  if resp.status ≠ STATUS_SUCCESS then
    Except.error "NtQueryInformationProcess query ProcessDebugPort failed"
  else
    match resp.value with
    | 0 => Except.ok false
    | _ => Except.ok true

/-- `impl BeingDebug for DebugPort` (src/nt_query/mod.rs:18-26): the verdict
maps a failed query to `false`. -/
def DebugPort.is_being_debug (resp : NtQueryResponse) : Bool :=
  match DebugPort.nt_query_debug_port resp with
  | Except.error _ => false
  | Except.ok x => x

/-- `DebugObject::nt_query_debug_object` (src/nt_query/mod.rs:132-169):
`STATUS_PORT_NOT_SET` means clean; any other non-success status is a typed
error; on success the verdict is `!handle.is_invalid()`. -/
def DebugObject.nt_query_debug_object (resp : NtHandleQueryResponse) : Except String Bool :=
  if resp.status = STATUS_PORT_NOT_SET then
    Except.ok false
  else if resp.status ≠ STATUS_SUCCESS then
    Except.error "NtQueryInformationProcess query ProcessDebugObjectHandle failed"
  else
    Except.ok (!HANDLE.is_invalid resp.handle)

/-- `impl BeingDebug for DebugObject` (src/nt_query/mod.rs:121-129): the
verdict maps a failed query to `false`. -/
def DebugObject.is_being_debug (resp : NtHandleQueryResponse) : Bool :=
  match DebugObject.nt_query_debug_object resp with
  | Except.error _ => false
  | Except.ok x => x

/-- `NtQueryDebug::nt_query_core` (src/nt_query/mod.rs:184-210): for the
debug-object class, `STATUS_PORT_NOT_SET` returns the buffer value as a
success; otherwise any non-success status is a typed error. -/
def NtQueryDebug.nt_query_core (resp : NtQueryResponse) (query_type : QueryType) :
    Except String Nat :=
  if resp.status = STATUS_PORT_NOT_SET ∧ query_type = QueryType.DebugObject then
    Except.ok resp.value
  else if resp.status ≠ STATUS_SUCCESS then
    Except.error "NtQueryInformationProcess failed"
  else
    Except.ok resp.value

/-- `NtQueryDebug::check_debug_port` (src/nt_query/mod.rs:212-220). -/
def NtQueryDebug.check_debug_port (resp : NtQueryResponse) : Bool :=
  match NtQueryDebug.nt_query_core resp QueryType.DebugPort with
  | Except.error _ => false
  | Except.ok x =>
    match x with
    | 0 => false
    | _ => true

/-- `NtQueryDebug::check_debug_object` (src/nt_query/mod.rs:222-230). -/
def NtQueryDebug.check_debug_object (resp : NtQueryResponse) : Bool :=
  match NtQueryDebug.nt_query_core resp QueryType.DebugObject with
  | Except.error _ => false
  | Except.ok x =>
    match x with
    | 0 => false
    | _ => true

/-- `NtQueryDebug::check_debug_flags` (src/nt_query/mod.rs:232-240). -/
def NtQueryDebug.check_debug_flags (resp : NtQueryResponse) : Bool :=
  match NtQueryDebug.nt_query_core resp QueryType.DebugFlags with
  | Except.error _ => false
  | Except.ok x =>
    match x with
    | 0 => false
    | _ => true

/-- `impl BeingDebug for NtQueryDebug` (src/nt_query/mod.rs:174-181): the
conjunction of the three sub-checks, each applied to the response of its own
query. -/
def NtQueryDebug.is_being_debug
    (respFlags respObject respPort : NtQueryResponse) : Bool :=
  NtQueryDebug.check_debug_flags respFlags
    && NtQueryDebug.check_debug_object respObject
    && NtQueryDebug.check_debug_port respPort

/-- `WinProcessHeap` (src/peb/mod.rs:70-81), keeping the two interpreted
fields. -/
structure WinProcessHeap where
  flags : Nat
  force_flags : Nat
deriving DecidableEq

/-- `impl BeingDebug for WinProcessHeap` (src/peb/mod.rs:97-105). -/
def WinProcessHeap.is_being_debug (h : WinProcessHeap) : Bool :=
  if h.flags = 2 ∧ h.force_flags = 0 then false else true

/-- `WinPeb` (src/peb/mod.rs:10-29), keeping the three interpreted fields;
the `process_heap` pointer is `none` when null. -/
structure WinPeb where
  being_debugged : Nat
  process_heap : Option WinProcessHeap
  nt_global_flag : Nat
deriving DecidableEq

/-- `impl BeingDebug for WinPeb` (src/peb/mod.rs:60-68): one combined verdict
over both PEB signals. -/
def WinPeb.is_being_debug (p : WinPeb) : Bool :=
  if p.being_debugged = 0 ∧ p.nt_global_flag ≠ 0x70 then false else true

/-- `WinPeb::peb_being_debugged_asm` (src/peb/mod.rs:191-198): reads the PEB
and returns `WinPeb::is_being_debug` on it; the raw `gs:[0x60]` fetch is
modelled by taking the PEB view as input. -/
def WinPeb.peb_being_debugged_asm (p : WinPeb) : Bool :=
  p.is_being_debug

/-- `WinPeb::peb_nt_global_flag_asm` (src/peb/mod.rs:218-225): reads the PEB
and returns `WinPeb::is_being_debug` on it. -/
def WinPeb.peb_nt_global_flag_asm (p : WinPeb) : Bool :=
  p.is_being_debug

/-- `WinPeb::peb_process_heap_asm` (src/peb/mod.rs:243-264): a typed error if
`PEB.ProcessHeap` is null, otherwise the heap verdict. -/
def WinPeb.peb_process_heap_asm (p : WinPeb) : Except String Bool :=
  match p.process_heap with
  | none => Except.error "PEB.ProcessHeap value: Null is invalid"
  | some h => Except.ok h.is_being_debug

/-- The four hardware breakpoint address registers of a saved thread context
(`windows` crate `CONTEXT`, the fields `breakpoint/mod.rs` touches). -/
structure CONTEXT where
  Dr0 : Nat
  Dr1 : Nat
  Dr2 : Nat
  Dr3 : Nat
deriving DecidableEq

/-- `impl BeingDebug for CONTEXT` (src/breakpoint/mod.rs:9-17). -/
def CONTEXT.is_being_debug (c : CONTEXT) : Bool :=
  if c.Dr0 ≠ 0 ∨ c.Dr1 ≠ 0 ∨ c.Dr2 ≠ 0 ∨ c.Dr3 ≠ 0 then true else false

/-- `HardwareBreakPoint::is_hardware_breakpoint_set` (src/breakpoint/mod.rs:43-53):
`GetThreadContext` is modelled by its result (`none` = API failure). -/
def HardwareBreakPoint.is_hardware_breakpoint_set
    (getThreadContext : Option CONTEXT) : Except String Bool :=
  match getThreadContext with
  | none => Except.error "GetThreadContext failed"
  | some c => Except.ok c.is_being_debug

/-- `HardwareBreakPoint::clean_hardware_breakpoint` (src/breakpoint/mod.rs:65-77):
read the context, zero Dr0-Dr3, write it back.  `setOk` models whether
`SetThreadContext` succeeds; on success the returned context is the one
written back to the thread. -/
def HardwareBreakPoint.clean_hardware_breakpoint
    (getThreadContext : Option CONTEXT) (setOk : Bool) : Except String CONTEXT :=
  match getThreadContext with
  | none => Except.error "GetThreadContext failed"
  | some c =>
    if setOk then
      Except.ok { c with Dr0 := 0, Dr1 := 0, Dr2 := 0, Dr3 := 0 }
    else
      Except.error "SetThreadContext failed"

/-- `Exception` (src/exception.rs:5-7): the registry of detection handlers. -/
structure Exception (H : Type) where
  handlers : List H

/-- `Exception::register_handler` (src/exception.rs:12-15): push one handler. -/
def Exception.register_handler {H : Type} (e : Exception H) (h : H) : Exception H :=
  { handlers := e.handlers ++ [h] }

/-- `rand` crate `Rng::gen_range(0..n)`: a value uniformly drawn from
`[0, n)`; modelled by reducing the RNG draw modulo `n`. -/
def gen_range (rng : Nat) (n : Nat) : Nat :=
  rng % n

/-- `Exception::rand_handlers` (src/exception.rs:17-25): `None` on an empty
registry, otherwise the handler at a random index below `handlers.len()`. -/
def Exception.rand_handlers {H : Type} (e : Exception H) (rng : Nat) : Option H :=
  if e.handlers.isEmpty then none
  else e.handlers.get? (gen_range rng e.handlers.length)

/-- `SystemHandleTableEntryInfo` (src/thread/mod.rs:83-93); addresses and
handle values as `Nat`, with `object = 0` modelling a null object pointer. -/
structure SystemHandleTableEntryInfo where
  unique_process_id : Nat
  creator_back_trace_index : Nat
  object_type_index : Nat
  handle_attributes : Nat
  handle_value : Nat
  object : Nat
  granted_access : Nat
deriving DecidableEq

/-- `HoneyThread` (src/thread/mod.rs:106-111): `thread_handle` is the raw
handle value (`none` before arming), `thread_object = 0` models the
`null_mut()` unresolved state. -/
structure HoneyThread where
  thread_handle : Option Nat
  thread_object : Nat
  process_uid : Nat
  thread_uid : Nat
deriving DecidableEq

/-- The object-address resolution loop of `HoneyThread::check`
(src/thread/mod.rs:318-331): every entry whose
`(unique_process_id, handle_value)` matches `(process_uid, handle)`
overwrites `thread_object`, so the last matching entry wins; the accumulator
starts from the current `thread_object`. -/
def HoneyThread.resolve_thread_object (ht : HoneyThread) (h : Nat)
    (entries : List SystemHandleTableEntryInfo) : Nat :=
  entries.foldl
    (fun acc entry =>
      if entry.unique_process_id == ht.process_uid && entry.handle_value == h then
        entry.object
      else acc)
    ht.thread_object

/-- `HoneyThread::check` (src/thread/mod.rs:301-357).  The
`query_system_information()` call is modelled by its result `query`.  The
returned pair is the updated state (the code memoizes `thread_object`) and
the verdict. -/
def HoneyThread.check (ht : HoneyThread)
    (query : Except String (List SystemHandleTableEntryInfo)) :
    HoneyThread × Except String Bool :=
  match ht.thread_handle with
  | none =>
    (ht, Except.error "HoneyThread instance value error!")
  | some h =>
    if ht.process_uid = 0 then
      (ht, Except.error "HoneyThread instance value error!")
    else
      match query with
      | Except.error e => (ht, Except.error e)
      | Except.ok entries =>
        let obj :=
          if ht.thread_object = 0 then ht.resolve_thread_object h entries
          else ht.thread_object
        let ht2 := { ht with thread_object := obj }
        if obj = 0 then
          (ht2, Except.error "Couldnt found currnet thread object")
        else if entries.any (fun entry =>
            entry.unique_process_id != ht.process_uid && entry.object == obj) then
          (ht2, Except.ok true)
        else
          (ht2, Except.ok false)

/-- The last handle-table entry whose `(unique_process_id, handle_value)`
pair matches `(pid, h)` — the entry whose `object` field the resolution loop
ends up recording. -/
def lastMatch (pid h : Nat) (entries : List SystemHandleTableEntryInfo) :
    Option SystemHandleTableEntryInfo :=
  entries.reverse.find?
    (fun entry => entry.unique_process_id == pid && entry.handle_value == h)

/-- Observable outcome of one `NtQuerySystemInformation` call: the returned
status, the reported required length, and the bytes the OS wrote into the
buffer. -/
structure NtQsiResponse where
  status : Int
  return_length : Nat
  written : List Nat
deriving DecidableEq

/-- The grow-and-retry loop of `HoneyThread::query_system_information`
(src/thread/mod.rs:223-251).  The OS is modelled as a response function of
the call index and the buffer size passed; `fuel` makes the recursion
structural, `none` meaning the loop is still running after `fuel` calls.
Each retry passes the previously reported `return_length` as the new size;
the first call passes `0` because `return_length` is initialised to `0`
before the loop. -/
def query_system_information_loop (os : Nat → Nat → NtQsiResponse) :
    Nat → Nat → Nat → Option (Except String (List Nat))
  | 0, _, _ => none
  | fuel + 1, i, size =>
    let r := os i size
    if r.status = STATUS_INFO_LENGTH_MISMATCH then
      query_system_information_loop os fuel (i + 1) r.return_length
    else if r.status = STATUS_SUCCESS then
      some (Except.ok r.written)
    else
      some (Except.error "NtQuerySystemInformation failed!")

/-- `HoneyThread::query_system_information` (src/thread/mod.rs:223-251),
started at call index `0` with initial size `0`. -/
def query_system_information (os : Nat → Nat → NtQsiResponse) (fuel : Nat) :
    Option (Except String (List Nat)) :=
  query_system_information_loop os fuel 0 0

/-- The buffer size passed to the `i`-th `NtQuerySystemInformation` call of
the retry loop: `0` initially, then the previously reported length. -/
def qsi_trace_size (os : Nat → Nat → NtQsiResponse) : Nat → Nat
  | 0 => 0
  | i + 1 => (os i (qsi_trace_size os i)).return_length

/-- The status the OS returns on the `i`-th call of the retry loop. -/
def qsi_trace_status (os : Nat → Nat → NtQsiResponse) (i : Nat) : Int :=
  (os i (qsi_trace_size os i)).status

/-- C7: for every process-heap view, the heap-flags probe returns `false`
(clean) exactly when `flags == 2 && force_flags == 0`, and `true` for any
other combination of the two fields. -/
theorem win_process_heap_flags_verdict (h : WinProcessHeap) :
    (WinProcessHeap.is_being_debug h = false ↔ (h.flags = 2 ∧ h.force_flags = 0)) ∧
    (WinProcessHeap.is_being_debug h = true ↔ ¬(h.flags = 2 ∧ h.force_flags = 0)) := by
  unfold WinProcessHeap.is_being_debug
  by_cases hc : h.flags = 2 ∧ h.force_flags = 0 <;> simp [hc]

/-- C5 (code bug): both PEB probes return the shared combined verdict of
`WinPeb::is_being_debug`, not their own signal: `peb_being_debugged_asm`
returns `true` on a PEB whose `being_debugged` byte is `0` (because
`nt_global_flag = 0x70`), and `peb_nt_global_flag_asm` returns `true` on a
PEB whose `nt_global_flag` is not `0x70` (because `being_debugged ≠ 0`),
contradicting the per-signal clean conditions in each function's own
documentation. -/
theorem peb_probes_share_combined_verdict :
    WinPeb.peb_being_debugged_asm
      { being_debugged := 0, process_heap := none, nt_global_flag := 0x70 } = true ∧
    WinPeb.peb_nt_global_flag_asm
      { being_debugged := 1, process_heap := none, nt_global_flag := 0 } = true := by
  constructor <;> decide

/-- C9: the heap-reading probe fails with the invalid-pointer error exactly
when the PEB heap pointer is null, and on a non-null pointer returns `Ok`
with the heap verdict. -/
theorem peb_process_heap_asm_null_check (p : WinPeb) :
    (WinPeb.peb_process_heap_asm p =
        Except.error "PEB.ProcessHeap value: Null is invalid" ↔
      p.process_heap = none) ∧
    (∀ h, p.process_heap = some h →
      WinPeb.peb_process_heap_asm p = Except.ok (WinProcessHeap.is_being_debug h)) := by
  cases hp : p.process_heap <;> simp [WinPeb.peb_process_heap_asm, hp]

/-- C9 witness: a PEB with a non-null heap pointer whose heap is clean. -/
theorem peb_process_heap_asm_null_check_witness :
    WinPeb.peb_process_heap_asm
      { being_debugged := 0, process_heap := some { flags := 2, force_flags := 0 },
        nt_global_flag := 0 } = Except.ok false := by
  simpa using
    (peb_process_heap_asm_null_check
      { being_debugged := 0, process_heap := some { flags := 2, force_flags := 0 },
        nt_global_flag := 0 }).2 { flags := 2, force_flags := 0 } rfl

/-- C1 counterexample: on a failed query (status `5`, neither success nor
`STATUS_PORT_NOT_SET`) the inner query functions return a typed error, yet
the `BeingDebug` verdicts of the debug-port and debug-object probes report
the clean verdict `false`. -/
theorem debug_probe_error_to_clean_cex :
    (DebugPort.nt_query_debug_port { status := 5, value := 0 }).isOk = false ∧
    DebugPort.is_being_debug { status := 5, value := 0 } = false ∧
    (DebugObject.nt_query_debug_object { status := 5, handle := 0 }).isOk = false ∧
    DebugObject.is_being_debug { status := 5, handle := 0 } = false := by
  refine ⟨rfl, rfl, rfl, rfl⟩

/-- C1 (amended): the inner query functions surface a failed OS query as a
typed error, but the `BeingDebug` verdict of each probe maps that error to
the clean verdict `false`. -/
theorem debug_probe_error_maps_to_false
    (rp : NtQueryResponse) (ro : NtHandleQueryResponse) :
    (rp.status ≠ STATUS_SUCCESS →
      (DebugPort.nt_query_debug_port rp).isOk = false ∧
        DebugPort.is_being_debug rp = false) ∧
    (ro.status ≠ STATUS_PORT_NOT_SET → ro.status ≠ STATUS_SUCCESS →
      (DebugObject.nt_query_debug_object ro).isOk = false ∧
        DebugObject.is_being_debug ro = false) := by
  constructor
  · intro hs
    have hq : DebugPort.nt_query_debug_port rp =
        Except.error "NtQueryInformationProcess query ProcessDebugPort failed" := by
      unfold DebugPort.nt_query_debug_port
      rw [if_pos hs]
    constructor
    · rw [hq]
      rfl
    · unfold DebugPort.is_being_debug
      rw [hq]
  · intro hn hs
    have hq : DebugObject.nt_query_debug_object ro =
        Except.error "NtQueryInformationProcess query ProcessDebugObjectHandle failed" := by
      unfold DebugObject.nt_query_debug_object
      rw [if_neg hn, if_pos hs]
    constructor
    · rw [hq]
      rfl
    · unfold DebugObject.is_being_debug
      rw [hq]

/-- C1 witness: the amended behaviour at the failed-query input. -/
theorem debug_probe_error_maps_to_false_witness :
    DebugPort.is_being_debug { status := 5, value := 0 } = false ∧
    DebugObject.is_being_debug { status := 5, handle := 0 } = false := by
  constructor
  · exact ((debug_probe_error_maps_to_false
      { status := 5, value := 0 } { status := 5, handle := 0 }).1 (by decide)).2
  · exact ((debug_probe_error_maps_to_false
      { status := 5, value := 0 } { status := 5, handle := 0 }).2
        (by decide) (by decide)).2

/-- C2: the aggregate query-based verdict is `true` exactly when all three
sub-checks return `true`, and each sub-check maps a failed query to
`false`. -/
theorem nt_query_debug_aggregate_and (rf ro rp : NtQueryResponse) :
    (NtQueryDebug.is_being_debug rf ro rp = true ↔
      (NtQueryDebug.check_debug_flags rf = true ∧
        NtQueryDebug.check_debug_object ro = true ∧
        NtQueryDebug.check_debug_port rp = true)) ∧
    ((NtQueryDebug.nt_query_core rf QueryType.DebugFlags).isOk = false →
      NtQueryDebug.check_debug_flags rf = false) ∧
    ((NtQueryDebug.nt_query_core ro QueryType.DebugObject).isOk = false →
      NtQueryDebug.check_debug_object ro = false) ∧
    ((NtQueryDebug.nt_query_core rp QueryType.DebugPort).isOk = false →
      NtQueryDebug.check_debug_port rp = false) := by
  refine ⟨?_, ?_, ?_, ?_⟩
  · simp [NtQueryDebug.is_being_debug, Bool.and_eq_true, and_assoc]
  · intro hf
    cases hq : NtQueryDebug.nt_query_core rf QueryType.DebugFlags with
    | error e => unfold NtQueryDebug.check_debug_flags; rw [hq]
    | ok x => rw [hq] at hf; simp [Except.isOk, Except.toBool] at hf
  · intro hf
    cases hq : NtQueryDebug.nt_query_core ro QueryType.DebugObject with
    | error e => unfold NtQueryDebug.check_debug_object; rw [hq]
    | ok x => rw [hq] at hf; simp [Except.isOk, Except.toBool] at hf
  · intro hf
    cases hq : NtQueryDebug.nt_query_core rp QueryType.DebugPort with
    | error e => unfold NtQueryDebug.check_debug_port; rw [hq]
    | ok x => rw [hq] at hf; simp [Except.isOk, Except.toBool] at hf

/-- C2 witness: failed queries make every sub-check `false`, and three
confirming queries make the aggregate `true`. -/
theorem nt_query_debug_aggregate_and_witness :
    NtQueryDebug.check_debug_flags { status := 5, value := 0 } = false ∧
    NtQueryDebug.check_debug_object { status := 5, value := 0 } = false ∧
    NtQueryDebug.check_debug_port { status := 5, value := 0 } = false ∧
    NtQueryDebug.is_being_debug
      { status := 0, value := 1 } { status := 0, value := 1 }
      { status := 0, value := 1 } = true := by
  refine ⟨?_, ?_, ?_, ?_⟩
  · exact (nt_query_debug_aggregate_and
      { status := 5, value := 0 } { status := 5, value := 0 }
      { status := 5, value := 0 }).2.1 rfl
  · exact (nt_query_debug_aggregate_and
      { status := 5, value := 0 } { status := 5, value := 0 }
      { status := 5, value := 0 }).2.2.1 rfl
  · exact (nt_query_debug_aggregate_and
      { status := 5, value := 0 } { status := 5, value := 0 }
      { status := 5, value := 0 }).2.2.2 rfl
  · exact (nt_query_debug_aggregate_and
      { status := 0, value := 1 } { status := 0, value := 1 }
      { status := 0, value := 1 }).1.mpr ⟨rfl, rfl, rfl⟩

/-- C4: the debug-object probe returns `false` on the dedicated
`STATUS_PORT_NOT_SET` status, `true` on a successful query with a valid
non-sentinel handle, and `false` on a successful query that yields the
invalid-handle sentinel `-1`. -/
theorem nt_query_debug_object_cases (r : NtHandleQueryResponse) :
    (r.status = STATUS_PORT_NOT_SET →
      DebugObject.nt_query_debug_object r = Except.ok false) ∧
    (r.status = STATUS_SUCCESS → HANDLE.is_invalid r.handle = false →
      DebugObject.nt_query_debug_object r = Except.ok true) ∧
    (r.status = STATUS_SUCCESS → r.handle = -1 →
      DebugObject.nt_query_debug_object r = Except.ok false) := by
  refine ⟨?_, ?_, ?_⟩
  · intro hs
    simp [DebugObject.nt_query_debug_object, hs]
  · intro hs hv
    unfold DebugObject.nt_query_debug_object
    rw [hs, if_neg (by decide : ¬ STATUS_SUCCESS = STATUS_PORT_NOT_SET),
      if_neg (by simp : ¬ STATUS_SUCCESS ≠ STATUS_SUCCESS), hv]
    rfl
  · intro hs hv
    unfold DebugObject.nt_query_debug_object
    rw [hs, if_neg (by decide : ¬ STATUS_SUCCESS = STATUS_PORT_NOT_SET),
      if_neg (by simp : ¬ STATUS_SUCCESS ≠ STATUS_SUCCESS), hv]
    rfl

/-- C4 witness: the three cases at concrete query outcomes. -/
theorem nt_query_debug_object_cases_witness :
    DebugObject.nt_query_debug_object
      { status := STATUS_PORT_NOT_SET, handle := 0 } = Except.ok false ∧
    DebugObject.nt_query_debug_object { status := 0, handle := 5 } = Except.ok true ∧
    DebugObject.nt_query_debug_object { status := 0, handle := -1 } = Except.ok false := by
  refine ⟨?_, ?_, ?_⟩
  · exact (nt_query_debug_object_cases
      { status := STATUS_PORT_NOT_SET, handle := 0 }).1 rfl
  · exact (nt_query_debug_object_cases { status := 0, handle := 5 }).2.1 rfl (by decide)
  · exact (nt_query_debug_object_cases { status := 0, handle := -1 }).2.2 rfl rfl

/-- C8: a context with any of Dr0-Dr3 nonzero is detected, and a context
written back by a successful clear operation is no longer detected
(set, detect `true`, clear, detect `false`). -/
theorem hardware_breakpoint_probe_roundtrip (c : CONTEXT) :
    ((c.Dr0 ≠ 0 ∨ c.Dr1 ≠ 0 ∨ c.Dr2 ≠ 0 ∨ c.Dr3 ≠ 0) →
      HardwareBreakPoint.is_hardware_breakpoint_set (some c) = Except.ok true) ∧
    (∀ g s c2, HardwareBreakPoint.clean_hardware_breakpoint g s = Except.ok c2 →
      HardwareBreakPoint.is_hardware_breakpoint_set (some c2) = Except.ok false) := by
  constructor
  · intro hc
    simp [HardwareBreakPoint.is_hardware_breakpoint_set, CONTEXT.is_being_debug, hc]
  · intro g s c2 hcl
    cases g with
    | none => simp [HardwareBreakPoint.clean_hardware_breakpoint] at hcl
    | some c0 =>
      cases s with
      | false => simp [HardwareBreakPoint.clean_hardware_breakpoint] at hcl
      | true =>
        simp [HardwareBreakPoint.clean_hardware_breakpoint] at hcl
        simp [HardwareBreakPoint.is_hardware_breakpoint_set, CONTEXT.is_being_debug,
          ← hcl]

/-- C8 witness: round-trip at a concrete context. -/
theorem hardware_breakpoint_probe_roundtrip_witness :
    HardwareBreakPoint.is_hardware_breakpoint_set
      (some { Dr0 := 1, Dr1 := 0, Dr2 := 0, Dr3 := 0 }) = Except.ok true ∧
    HardwareBreakPoint.clean_hardware_breakpoint
      (some { Dr0 := 1, Dr1 := 2, Dr2 := 3, Dr3 := 4 }) true =
      Except.ok { Dr0 := 0, Dr1 := 0, Dr2 := 0, Dr3 := 0 } ∧
    HardwareBreakPoint.is_hardware_breakpoint_set
      (some { Dr0 := 0, Dr1 := 0, Dr2 := 0, Dr3 := 0 }) = Except.ok false := by
  refine ⟨?_, rfl, ?_⟩
  · exact (hardware_breakpoint_probe_roundtrip
      { Dr0 := 1, Dr1 := 0, Dr2 := 0, Dr3 := 0 }).1 (by decide)
  · exact (hardware_breakpoint_probe_roundtrip
      { Dr0 := 0, Dr1 := 0, Dr2 := 0, Dr3 := 0 }).2
      (some { Dr0 := 1, Dr1 := 2, Dr2 := 3, Dr3 := 4 }) true
      { Dr0 := 0, Dr1 := 0, Dr2 := 0, Dr3 := 0 } rfl

/-- C10: the random selection returns `none` exactly on an empty registry,
and otherwise returns the handler at an in-bounds index (no out-of-bounds
access). -/
theorem exception_rand_handlers_safe {H : Type} (e : Exception H) (rng : Nat) :
    (Exception.rand_handlers e rng = none ↔ e.handlers = []) ∧
    (e.handlers ≠ [] →
      gen_range rng e.handlers.length < e.handlers.length ∧
      ∃ hd, Exception.rand_handlers e rng = some hd ∧
        e.handlers.get? (gen_range rng e.handlers.length) = some hd) := by
  by_cases he : e.handlers = []
  · constructor
    · simp [Exception.rand_handlers, he]
    · intro hne
      exact absurd he hne
  · have hlen : 0 < e.handlers.length := List.length_pos.mpr he
    have hlt : gen_range rng e.handlers.length < e.handlers.length :=
      Nat.mod_lt _ hlen
    have hgs := List.get?_eq_get (l := e.handlers) hlt
    have hb : e.handlers.isEmpty = false := by
      cases hl : e.handlers with
      | nil => exact absurd hl he
      | cons a l => rfl
    have hre : Exception.rand_handlers e rng =
        e.handlers.get? (gen_range rng e.handlers.length) := by
      unfold Exception.rand_handlers
      rw [hb]
      simp
    constructor
    · rw [hre, hgs]
      simp [he]
    · intro _
      exact ⟨hlt, _, by rw [hre, hgs], hgs⟩

/-- C10 witness: a two-element registry never yields `none` and stays in
bounds. -/
theorem exception_rand_handlers_safe_witness :
    Exception.rand_handlers (H := Nat) { handlers := [3, 4] } 5 = some 4 := by
  obtain ⟨hlt, hd, hr, hg⟩ :=
    (exception_rand_handlers_safe (H := Nat) { handlers := [3, 4] } 5).2 (by decide)
  have h4 : (Exception.mk [3, 4] : Exception Nat).handlers.get?
      (gen_range 5 (Exception.mk [3, 4] : Exception Nat).handlers.length) = some 4 := by
    decide
  have hhd : hd = 4 := by
    have := hg.symm.trans h4
    exact Option.some.inj this
  rw [hr, hhd]

/-- The resolution loop records the `object` field of the last matching
handle-table entry, and leaves the accumulator untouched when no entry
matches. -/
theorem resolve_thread_object_eq_lastMatch (ht : HoneyThread) (h : Nat)
    (entries : List SystemHandleTableEntryInfo) :
    ht.resolve_thread_object h entries =
      match lastMatch ht.process_uid h entries with
      | some entry => entry.object
      | none => ht.thread_object := by
  unfold HoneyThread.resolve_thread_object lastMatch
  induction entries using List.reverseRecOn with
  | nil => rfl
  | append_singleton l x ih =>
    rw [List.foldl_append, List.reverse_append]
    simp only [List.foldl_cons, List.foldl_nil, List.reverse_cons, List.reverse_nil,
      List.nil_append, List.singleton_append, List.find?]
    cases hpx : (x.unique_process_id == ht.process_uid && x.handle_value == h) with
    | true =>
      rfl
    | false =>
      exact ih

/-- `HoneyThread::check` on an armed instance reduces to the
resolve-then-scan expression. -/
theorem honey_thread_check_armed (ht : HoneyThread) (h : Nat)
    (entries : List SystemHandleTableEntryInfo)
    (hh : ht.thread_handle = some h) (hp : ht.process_uid ≠ 0) :
    ht.check (Except.ok entries) =
      (let obj := if ht.thread_object = 0 then ht.resolve_thread_object h entries
                  else ht.thread_object
       let ht2 := { ht with thread_object := obj }
       if obj = 0 then
         (ht2, Except.error "Couldnt found currnet thread object")
       else if entries.any (fun entry =>
           entry.unique_process_id != ht.process_uid && entry.object == obj) then
         (ht2, Except.ok true)
       else
         (ht2, Except.ok false)) := by
  unfold HoneyThread.check
  rw [hh]
  simp only [if_neg hp]

/-- The second scan of `check` finds a foreign holder of the object address
exactly when one exists in the snapshot. -/
theorem honey_scan_exists (pid obj : Nat) (entries : List SystemHandleTableEntryInfo) :
    (entries.any (fun entry =>
        entry.unique_process_id != pid && entry.object == obj) = true) ↔
      ∃ x ∈ entries, x.unique_process_id ≠ pid ∧ x.object = obj := by
  simp [List.any_eq_true, Bool.and_eq_true, bne_iff_ne, beq_iff_eq]

/-- C3 (amended): on an armed correlator with an unresolved object address,
`check` returns an error exactly when the address the resolution loop records
is null — either no entry matches the honeypot `(process id, handle value)`
pair, or the last matching entry carries a null object address; when the
recorded address is non-null (and likewise when the address was already
memoized), the verdict is `Ok(true)` exactly when some entry of another
process carries that address, and `Ok(false)` otherwise. -/
theorem honey_thread_check_spec (ht : HoneyThread) (h : Nat)
    (entries : List SystemHandleTableEntryInfo)
    (hh : ht.thread_handle = some h) (hp : ht.process_uid ≠ 0) :
    (ht.thread_object = 0 → lastMatch ht.process_uid h entries = none →
      (ht.check (Except.ok entries)).2 =
        Except.error "Couldnt found currnet thread object") ∧
    (ht.thread_object = 0 →
      ∀ entry, lastMatch ht.process_uid h entries = some entry → entry.object = 0 →
      (ht.check (Except.ok entries)).2 =
        Except.error "Couldnt found currnet thread object") ∧
    (ht.thread_object = 0 →
      ∀ entry, lastMatch ht.process_uid h entries = some entry → entry.object ≠ 0 →
      (((ht.check (Except.ok entries)).2 = Except.ok true ↔
        ∃ x ∈ entries, x.unique_process_id ≠ ht.process_uid ∧
          x.object = entry.object) ∧
      ((ht.check (Except.ok entries)).2 = Except.ok false ↔
        ¬ ∃ x ∈ entries, x.unique_process_id ≠ ht.process_uid ∧
          x.object = entry.object))) ∧
    (ht.thread_object ≠ 0 →
      (((ht.check (Except.ok entries)).2 = Except.ok true ↔
        ∃ x ∈ entries, x.unique_process_id ≠ ht.process_uid ∧
          x.object = ht.thread_object) ∧
      ((ht.check (Except.ok entries)).2 = Except.ok false ↔
        ¬ ∃ x ∈ entries, x.unique_process_id ≠ ht.process_uid ∧
          x.object = ht.thread_object))) := by
  have hc := honey_thread_check_armed ht h entries hh hp
  refine ⟨?_, ?_, ?_, ?_⟩
  · intro h0 hlm
    have hro : ht.resolve_thread_object h entries = 0 := by
      rw [resolve_thread_object_eq_lastMatch, hlm]
      exact h0
    rw [hc]
    simp [h0, hro]
  · intro h0 entry hlm heo
    have hro : ht.resolve_thread_object h entries = 0 := by
      rw [resolve_thread_object_eq_lastMatch, hlm]
      exact heo
    rw [hc]
    simp [h0, hro]
  · intro h0 entry hlm heo
    have hro : ht.resolve_thread_object h entries = entry.object := by
      rw [resolve_thread_object_eq_lastMatch, hlm]
    rw [hc]
    simp only [h0, if_pos rfl, hro, if_neg heo]
    rw [← honey_scan_exists ht.process_uid entry.object entries]
    cases hany : entries.any (fun x =>
        x.unique_process_id != ht.process_uid && x.object == entry.object) with
    | true => simp [hany, heo]
    | false => simp [hany, heo]
  · intro h0
    rw [hc]
    simp only [if_neg h0]
    rw [← honey_scan_exists ht.process_uid ht.thread_object entries]
    cases hany : entries.any (fun x =>
        x.unique_process_id != ht.process_uid && x.object == ht.thread_object) with
    | true => simp [hany, h0]
    | false => simp [hany, h0]

/-- Armed honeypot state for the C3 counterexample: handle value 4 in
process 7, object address not yet resolved. -/
def honeyThreadCex : HoneyThread :=
  { thread_handle := some 4, thread_object := 0, process_uid := 7, thread_uid := 1 }

/-- Snapshot for the C3 counterexample: the single entry matches the
honeypot `(process id, handle value)` pair but carries a null object
address. -/
def honeyEntriesCex : List SystemHandleTableEntryInfo :=
  [{ unique_process_id := 7, creator_back_trace_index := 0, object_type_index := 0,
     handle_attributes := 0, handle_value := 4, object := 0, granted_access := 0 }]

/-- C3 counterexample: an entry matching `(this process, honeypot handle)`
exists and no entry of another process exists at all, so the claim requires
`Ok(false)`; the code instead returns an error, because the matching entry's
object address is null. -/
theorem honey_thread_check_cex :
    honeyThreadCex.thread_handle = some 4 ∧
    honeyThreadCex.process_uid ≠ 0 ∧
    honeyThreadCex.thread_object = 0 ∧
    (∃ x ∈ honeyEntriesCex, x.unique_process_id = honeyThreadCex.process_uid ∧
      x.handle_value = 4) ∧
    (¬ ∃ x ∈ honeyEntriesCex, x.unique_process_id ≠ honeyThreadCex.process_uid) ∧
    ((honeyThreadCex.check (Except.ok honeyEntriesCex)).2).isOk = false := by
  decide

/-- Armed honeypot state for the C3 witness. -/
def honeyThreadW : HoneyThread :=
  { thread_handle := some 4, thread_object := 0, process_uid := 7, thread_uid := 1 }

/-- Snapshot for the C3 witness: the honeypot entry resolves to address 5,
and a foreign process (id 9) holds a handle to the same address. -/
def honeyEntriesW : List SystemHandleTableEntryInfo :=
  [{ unique_process_id := 7, creator_back_trace_index := 0, object_type_index := 0,
     handle_attributes := 0, handle_value := 4, object := 5, granted_access := 0 },
   { unique_process_id := 9, creator_back_trace_index := 0, object_type_index := 0,
     handle_attributes := 0, handle_value := 2, object := 5, granted_access := 0 }]

/-- C3 witness: the amended behaviour at a concrete armed state and
snapshot, yielding the debugger-observed verdict. -/
theorem honey_thread_check_spec_witness :
    (honeyThreadW.check (Except.ok honeyEntriesW)).2 = Except.ok true := by
  have hspec :=
    (honey_thread_check_spec honeyThreadW 4 honeyEntriesW rfl (by decide)).2.2.1
  exact (hspec rfl
      { unique_process_id := 7, creator_back_trace_index := 0, object_type_index := 0,
        handle_attributes := 0, handle_value := 4, object := 5, granted_access := 0 }
      (by decide) (by decide)).1.mpr
    ⟨{ unique_process_id := 9, creator_back_trace_index := 0, object_type_index := 0,
       handle_attributes := 0, handle_value := 2, object := 5, granted_access := 0 },
      by decide, by decide, by decide⟩

/-- One step of the retry loop with fuel left: the call is made and, on a
length mismatch, the loop retries at the next call index with the reported
size. -/
theorem qsi_loop_succ (os : Nat → Nat → NtQsiResponse) (fuel i size : Nat) :
    query_system_information_loop os (fuel + 1) i size =
      if (os i size).status = STATUS_INFO_LENGTH_MISMATCH then
        query_system_information_loop os fuel (i + 1) (os i size).return_length
      else if (os i size).status = STATUS_SUCCESS then
        some (Except.ok (os i size).written)
      else
        some (Except.error "NtQuerySystemInformation failed!") := rfl

/-- After `n` consecutive `STATUS_INFO_LENGTH_MISMATCH` responses, the retry
loop stands at call index `n` with the buffer size the OS last reported. -/
theorem qsi_loop_advance (os : Nat → Nat → NtQsiResponse) :
    ∀ n fuel,
      (∀ j, j < n → qsi_trace_status os j = STATUS_INFO_LENGTH_MISMATCH) →
      query_system_information_loop os (n + fuel) 0 0 =
        query_system_information_loop os fuel n (qsi_trace_size os n) := by
  intro n
  induction n with
  | zero =>
    intro fuel _
    rw [Nat.zero_add]
    rfl
  | succ n ih =>
    intro fuel hmis
    have h1 : query_system_information_loop os (n + (fuel + 1)) 0 0 =
        query_system_information_loop os (fuel + 1) n (qsi_trace_size os n) :=
      ih (fuel + 1) (fun j hj => hmis j (Nat.lt_succ_of_lt hj))
    have hs : (os n (qsi_trace_size os n)).status = STATUS_INFO_LENGTH_MISMATCH :=
      hmis n (Nat.lt_succ_self n)
    have h2 : query_system_information_loop os (fuel + 1) n (qsi_trace_size os n) =
        query_system_information_loop os fuel (n + 1) (qsi_trace_size os (n + 1)) := by
      rw [qsi_loop_succ, if_pos hs]
      rfl
    have harith : n + 1 + fuel = n + (fuel + 1) := by omega
    rw [harith, h1, h2]

/-- C6: the snapshot query retries on every `STATUS_INFO_LENGTH_MISMATCH`
response, passing the size the OS just reported; when the OS stops reporting
a length mismatch after finitely many calls, the loop terminates at the
first non-mismatch call, returning the bytes the OS wrote on a success
status and a typed error on any other status. -/
theorem query_system_information_spec (os : Nat → Nat → NtQsiResponse)
    (hterm : ∃ n, qsi_trace_status os n ≠ STATUS_INFO_LENGTH_MISMATCH) :
    (∀ i size fuel, (os i size).status = STATUS_INFO_LENGTH_MISMATCH →
      query_system_information_loop os (fuel + 1) i size =
        query_system_information_loop os fuel (i + 1) (os i size).return_length) ∧
    (∀ fuel, Nat.find hterm < fuel →
      query_system_information os fuel =
        some (if qsi_trace_status os (Nat.find hterm) = STATUS_SUCCESS
          then Except.ok ((os (Nat.find hterm)
            (qsi_trace_size os (Nat.find hterm))).written)
          else Except.error "NtQuerySystemInformation failed!")) := by
  constructor
  · intro i size fuel hs
    rw [qsi_loop_succ, if_pos hs]
  · intro fuel hfuel
    obtain ⟨f, rfl⟩ : ∃ f, fuel = Nat.find hterm + (f + 1) :=
      ⟨fuel - Nat.find hterm - 1, by omega⟩
    have hmis : ∀ j, j < Nat.find hterm →
        qsi_trace_status os j = STATUS_INFO_LENGTH_MISMATCH := by
      intro j hj
      have := Nat.find_min hterm hj
      exact not_not.mp this
    have hns : ¬ (os (Nat.find hterm)
        (qsi_trace_size os (Nat.find hterm))).status = STATUS_INFO_LENGTH_MISMATCH :=
      Nat.find_spec hterm
    unfold query_system_information
    rw [qsi_loop_advance os (Nat.find hterm) (f + 1) hmis]
    rw [qsi_loop_succ, if_neg hns]
    unfold qsi_trace_status
    by_cases hsucc : (os (Nat.find hterm)
        (qsi_trace_size os (Nat.find hterm))).status = STATUS_SUCCESS
    · rw [if_pos hsucc, if_pos hsucc]
    · rw [if_neg hsucc, if_neg hsucc]

/-- OS behaviour for the C6 witness: the first call reports a length
mismatch with required size 64, the second call succeeds and fills the
buffer. -/
def qsiOsW : Nat → Nat → NtQsiResponse :=
  fun i _ =>
    if i = 0 then
      { status := STATUS_INFO_LENGTH_MISMATCH, return_length := 64, written := [] }
    else
      { status := STATUS_SUCCESS, return_length := 0, written := [1, 2, 3] }

/-- C6 witness: on the concrete OS behaviour the loop terminates after the
retry with the filled buffer. -/
theorem query_system_information_spec_witness :
    query_system_information qsiOsW 2 = some (Except.ok [1, 2, 3]) := by
  have hterm : ∃ n, qsi_trace_status qsiOsW n ≠ STATUS_INFO_LENGTH_MISMATCH :=
    ⟨1, by decide⟩
  have hfind : Nat.find hterm = 1 := by
    rw [Nat.find_eq_iff]
    exact ⟨by decide, by decide⟩
  have hrun := (query_system_information_spec qsiOsW hterm).2 2 (by rw [hfind]; omega)
  rw [hfind] at hrun
  rw [hrun]
  rfl
